import Mathlib

/-!
Shallow embedding of the container-execution core of the executor node.

The embedded code is the `store` package (GardenStore: Create / Run /
Destroy / List and the step-process supervision loop, together with
`transitionToRunning` / `transitionToComplete`) and the
`execute_action` package (ExecuteAction.Perform / Cancel / Cleanup).

External collaborators (the garden client, the exchanger, the tracker,
the event emitter) are modelled as oracles: the garden client's answers
and the exchanger's conversions are passed in as parameters, and the
calls the store makes to the tracker and the host are recorded in
explicit output traces so that theorems can speak about what was (and
was not) performed.
-/

/-- Container lifecycle states, `executor.State` in the source. -/
inductive State
  | reserved
  | initializing
  | created
  | running
  | completed
deriving DecidableEq, Repr

/-- The terminal run result stored on the container,
`executor.ContainerRunResult` (fields Failed / FailureReason). -/
structure RunResult where
  failed : Bool
  failureReason : String
deriving DecidableEq, Repr

/-- The internal container record, the fields of `executor.Container`
that the store reads: guid, state, the optional setup and monitor step
definitions, the action step definition, and tags.  Step definitions are
opaque to the store (they are handed to the transformer), so they are
represented by opaque identifiers. -/
structure Container where
  guid : String
  state : State
  setup : Option Nat
  action : Nat
  monitor : Option Nat
  tags : List (String × String)
deriving DecidableEq, Repr

/-- An opaque handle to a host (garden) container, as returned by the
garden client's list operation. -/
abbrev GContainer := Nat

/-- Errors of the `executor` package surfaced by the store:
`executor.ErrContainerNotFound`, `executor.ErrInvalidTransition`, and
errors bubbled up from the garden client / exchanger. -/
inductive ExecErr
  | containerNotFound
  | invalidTransition
  | gardenError (msg : String)
deriving DecidableEq, Repr

/-- The message of `executor.ErrInvalidTransition`; it is the
FailureReason written on an invalid `Run` transition. -/
def errInvalidTransitionMsg : String := "invalid state transition"

/-- The host property that stores the container state
(`ContainerStateProperty`, value namespace `executor:state`). -/
def ContainerStateProperty : String := "executor:state"

/-- The host property that stores the marshalled run result
(`ContainerResultProperty`, value namespace `executor:result`). -/
def ContainerResultProperty : String := "executor:result"

/-- The host property naming this node as the container owner
(`ContainerOwnerProperty`). -/
def ContainerOwnerProperty : String := "executor:owner"

/-- The key namespace under which tags are stored as host properties
(`tagPropertyPrefix` in the source). -/
def tagPropertyKeyStart : String := "tag:"

/-- Calls the store makes against its `InitializedTracker`. -/
inductive TrackerOp
  | initializeCall (c : Container)
  | deinitialize (guid : String)
deriving DecidableEq, Repr

/-- A value written to a host-container property: either the state
string or the JSON-marshalled run result (`json.Marshal` of a
bool/string struct cannot fail and is kept abstract). -/
inductive PropVal
  | state (s : State)
  | result (r : RunResult)
deriving DecidableEq, Repr

/-- Lifecycle events handed to the event emitter. -/
inductive Emitted
  | containerRunning
  | containerComplete
deriving DecidableEq, Repr

/-- Observable actions of the step process and of the state-transition
helpers: host property writes, event emissions, step/monitor
cancellations, and markers recording that the readiness channel or the
step-tree completion channel was actually received from. -/
inductive Out
  | setProp (key : String) (v : PropVal)
  | emit (e : Emitted)
  | cancelMonitor
  | cancelStep
  | consumedStarted
  | consumedComplete (err : Option String)
deriving DecidableEq, Repr

/-- Oracle for the host calls made during the two state transitions:
for each garden call, `none` means the call succeeds and `some e` means
it fails with message `e`.  `g2eRunErr` / `g2eCompleteErr` are the
`exchanger.Garden2Executor` conversions performed inside
`transitionToRunning` / `transitionToComplete`. -/
structure Host where
  setRunningErr : Option String
  setResultErr : Option String
  setCompletedErr : Option String
  g2eRunErr : Option String
  g2eCompleteErr : Option String
deriving DecidableEq, Repr

/-- A host on which every call succeeds. -/
def hostOk : Host := ⟨none, none, none, none, none⟩

namespace GardenStore

/-- `GardenStore.transitionToRunning`: set the state property to
running; on failure return the error.  Then convert the garden
container; on failure return the error.  Then emit ContainerRunning.
Returns the trace of performed actions and the error, if any. -/
def transitionToRunning (h : Host) : List Out × Option String :=
  match h.setRunningErr with
  | some e => ([], some e)
  | none =>
    match h.g2eRunErr with
    | some e => ([Out.setProp ContainerStateProperty (PropVal.state State.running)], some e)
    | none =>
      ([Out.setProp ContainerStateProperty (PropVal.state State.running),
        Out.emit Emitted.containerRunning], none)

/-- `GardenStore.transitionToComplete`: marshal the result (cannot
fail), write the result property, write the completed state property,
convert the garden container, emit ContainerComplete; stop at the first
failing call and return its error. -/
def transitionToComplete (h : Host) (r : RunResult) : List Out × Option String :=
  match h.setResultErr with
  | some e => ([], some e)
  | none =>
    match h.setCompletedErr with
    | some e => ([Out.setProp ContainerResultProperty (PropVal.result r)], some e)
    | none =>
      match h.g2eCompleteErr with
      | some e =>
        ([Out.setProp ContainerResultProperty (PropVal.result r),
          Out.setProp ContainerStateProperty (PropVal.state State.completed)], some e)
      | none =>
        ([Out.setProp ContainerResultProperty (PropVal.result r),
          Out.setProp ContainerStateProperty (PropVal.state State.completed),
          Out.emit Emitted.containerComplete], none)

/-- An event delivered to the step process's select loop: a caller
signal, a receive on the readiness channel (`hasStartedRunning`), or the
step tree's completion with its error (`nil` is `none`). -/
inductive Event
  | signal
  | started
  | complete (err : Option String)
deriving DecidableEq, Repr

/-- The OUTER_LOOP select of `runStepProcess`, run over the sequence of
delivered events.  `sOpen` / `stOpen` record whether the signal and
readiness channels are still selectable (the source nils each after its
first receipt).  On a caller signal: cancel the monitor step (when
present) and the step tree, keep looping.  On readiness: perform
`transitionToRunning`; on its failure set a failed result and break.  On
completion: set the result from the step error and break.  Returns the
action trace and `some result` when the loop broke (`none` means it
consumed every delivered event and is still blocked). -/
def runLoop (h : Host) (monitorPresent : Bool) :
    List Event → Bool → Bool → RunResult → List Out × Option RunResult
  | [], _, _, _ => ([], none)
  | Event.signal :: rest, sOpen, stOpen, r =>
    if sOpen then
      let t := runLoop h monitorPresent rest false stOpen r
      ((if monitorPresent then [Out.cancelMonitor, Out.cancelStep] else [Out.cancelStep])
        ++ t.1, t.2)
    else
      runLoop h monitorPresent rest sOpen stOpen r
  | Event.started :: rest, sOpen, stOpen, r =>
    if stOpen then
      match transitionToRunning h with
      | (outs, some e) => (Out.consumedStarted :: outs, some ⟨true, e⟩)
      | (outs, none) =>
        let t := runLoop h monitorPresent rest sOpen false r
        (Out.consumedStarted :: outs ++ t.1, t.2)
    else
      runLoop h monitorPresent rest sOpen stOpen r
  | Event.complete e :: _, _, _, r =>
    match e with
    | none => ([Out.consumedComplete none], some r)
    | some m => ([Out.consumedComplete (some m)], some ⟨true, m⟩)

/-- `GardenStore.runStepProcess`'s supervised body: run the select loop
starting from an empty result with both channels open, then (once the
loop has broken) perform `transitionToComplete` with the accumulated
result; a failure there is only logged. -/
def runStepProcess (h : Host) (monitorPresent : Bool) (events : List Event) :
    List Out × Option RunResult :=
  let t := runLoop h monitorPresent events true true ⟨false, ""⟩
  match t.2 with
  | none => (t.1, none)
  | some r => (t.1 ++ (transitionToComplete h r).1, some r)

/-- The step tree `Run` builds:
Serial(Setup? , Codependent(Action, Monitor(probe)?)). -/
inductive StepTree
  | leaf (action : Nat)
  | monitored (probe : StepTree)
  | serial (children : List StepTree)
  | codependent (children : List StepTree)

/-- The step-tree construction in `Run`: the optional setup first, then
a codependent pair of the action and, when present, the monitored
monitor step. -/
def buildStepTree (c : Container) : StepTree :=
  let par := StepTree.leaf c.action ::
    (match c.monitor with
     | some m => [StepTree.monitored (StepTree.leaf m)]
     | none => [])
  let seq :=
    (match c.setup with
     | some s => [StepTree.leaf s]
     | none => []) ++ [StepTree.codependent par]
  StepTree.serial seq

/-- What `Run` returned and did synchronously, before any step process
runs. -/
inductive RunRet
  | success
  | lookupFailed (e : String)
  | invalidTransition
deriving DecidableEq, Repr

/-- The synchronous outcome of `Run`: the returned value, the result
`transitionToComplete` was called with (if it was), the trace that call
produced, the step tree built, whether a step process was spawned, and
whether the readiness channel was already filled when it was spawned
(the no-monitor `hasStartedRunning <- struct` send). -/
structure RunOutcome where
  ret : RunRet
  completeCall : Option RunResult
  completeOuts : List Out
  step : Option StepTree
  spawned : Bool
  readinessAtStart : Bool

/-- `GardenStore.Run`: look up the garden container by guid, returning
the lookup error verbatim on failure (both the ErrContainerNotFound
branch and the generic branch return `err`).  Then require
`state = Created`: any other state calls `transitionToComplete` with a
failed result whose reason is ErrInvalidTransition's message and returns
ErrInvalidTransition.  Otherwise build the step tree, pre-fill the
readiness channel when there is no monitor, spawn the step process and
return nil.  `lookupRes` is the garden lookup oracle (`none` = found). -/
def run (c : Container) (lookupRes : Option String) (h : Host) : RunOutcome :=
  match lookupRes with
  | some e =>
    { ret := RunRet.lookupFailed e, completeCall := none, completeOuts := [],
      step := none, spawned := false, readinessAtStart := false }
  | none =>
    if c.state ≠ State.created then
      let r : RunResult := ⟨true, errInvalidTransitionMsg⟩
      { ret := RunRet.invalidTransition, completeCall := some r,
        completeOuts := (transitionToComplete h r).1,
        step := none, spawned := false, readinessAtStart := false }
    else
      { ret := RunRet.success, completeCall := none, completeOuts := [],
        step := some (buildStepTree c), spawned := true,
        readinessAtStart := c.monitor.isNone }

/-- The outcome of `GardenStore.Create`: the returned record or error,
the record handed to `exchanger.CreateInGarden` (`none` when the host
was never called), and the tracker calls performed. -/
structure CreateOutcome where
  result : Except ExecErr Container
  hostCallArg : Option Container
  trackerOps : List TrackerOp
deriving Repr

/-- `GardenStore.Create`: require `state = Initializing` (anything else
returns ErrInvalidTransition with no host call and no tracker call), set
`state := Created`, call `exchanger.CreateInGarden`; on its failure
return the error without tracking; on success call
`tracker.Initialize` with the returned record and return it. -/
def create (c : Container) (createInGarden : Container → Except String Container) :
    CreateOutcome :=
  if c.state ≠ State.initializing then
    { result := Except.error ExecErr.invalidTransition,
      hostCallArg := none, trackerOps := [] }
  else
    let c1 := { c with state := State.created }
    match createInGarden c1 with
    | Except.error e =>
      { result := Except.error (ExecErr.gardenError e),
        hostCallArg := some c1, trackerOps := [] }
    | Except.ok c2 =>
      { result := Except.ok c2, hostCallArg := some c1,
        trackerOps := [TrackerOp.initializeCall c2] }

/-- The outcome of `GardenStore.Destroy`: the returned error, whether a
registered step process was freed and signalled, whether the host
destroy was called, the tracker calls performed, and the logged host
error (if any). -/
structure DestroyOutcome where
  ret : Option String
  processFreed : Bool
  hostDestroyCalled : Bool
  trackerOps : List TrackerOp
  loggedError : Option String
deriving DecidableEq, Repr

/-- `GardenStore.Destroy`: free (signal, without waiting) any step
process registered for the guid, call the garden client's destroy; on
its failure log the error and return it; on success call
`tracker.Deinitialize` and return nil.  `hasProcess` is whether a step
process was registered; `hostDestroy` is the garden destroy oracle. -/
def destroy (guid : String) (hasProcess : Bool) (hostDestroy : Option String) :
    DestroyOutcome :=
  match hostDestroy with
  | some e =>
    { ret := some e, processFreed := hasProcess, hostDestroyCalled := true,
      trackerOps := [], loggedError := some e }
  | none =>
    { ret := none, processFreed := hasProcess, hostDestroyCalled := true,
      trackerOps := [TrackerOp.deinitialize guid], loggedError := none }

/-- The host-side filter `List` builds: the owner property for this
node plus the tag-namespaced keys of the caller's filter. -/
def listFilter (ownerName : String) (tags : List (String × String)) :
    List (String × String) :=
  (ContainerOwnerProperty, ownerName) ::
    tags.map (fun kv => (tagPropertyKeyStart ++ kv.1, kv.2))

/-- The loop body of `List`: convert each garden container with
`exchanger.Garden2Executor`, skipping (continue) any container whose
conversion fails. -/
def collectContainers (g2e : GContainer → Except String Container) :
    List GContainer → List Container
  | [] => []
  | g :: gs =>
    match g2e g with
    | Except.error _ => collectContainers g2e gs
    | Except.ok c => c :: collectContainers g2e gs

/-- `GardenStore.List`: ask the garden client for the containers
matching the owner/tag filter; when that call fails return
`executor.ErrContainerNotFound`; otherwise convert each container,
skipping conversion failures, and return the rest with no error.
`hostContainers` is the garden client's answer to the filtered list
call. -/
def listContainers (hostContainers : Except String (List GContainer))
    (g2e : GContainer → Except String Container) : Except ExecErr (List Container) :=
  match hostContainers with
  | Except.error _ => Except.error ExecErr.containerNotFound
  | Except.ok gs => Except.ok (collectContainers g2e gs)

end GardenStore

/-- The `models.RunOnce` record as read and written by ExecuteAction:
guid, container handle, and the failure fields it sets. -/
structure RunOnce where
  guid : String
  containerHandle : String
  failed : Bool
  failureReason : String
deriving DecidableEq, Repr

/-- Observable actions of ExecuteAction: spawning the inner action
runner's Perform, receiving its result, logging the failure, sending on
the outer result channel (`none` is nil), and — never produced by this
code — forwarding a cancellation to the inner runner. -/
inductive POut
  | spawnInner
  | recvInner (err : Option String)
  | logFailed (guid handle msg : String)
  | sendResult (v : Option String)
  | cancelInner
deriving DecidableEq, Repr

namespace ExecuteAction

/-- `ExecuteAction.Perform`: spawn the inner action runner's Perform,
block on its result; when it is an error, log it and set
Failed / FailureReason on the RunOnce; in every case finally send nil on
the outer result channel.  Returns the updated record and the action
trace; `innerErr` is the inner runner's delivered outcome. -/
def perform (r : RunOnce) (innerErr : Option String) : RunOnce × List POut :=
  match innerErr with
  | some m =>
    ({ r with failed := true, failureReason := m },
      [POut.spawnInner, POut.recvInner (some m),
       POut.logFailed r.guid r.containerHandle m, POut.sendResult none])
  | none =>
    (r, [POut.spawnInner, POut.recvInner none, POut.sendResult none])

/-- `ExecuteAction.Cancel` has an empty body: it performs no action. -/
def cancel : List POut := []

/-- `ExecuteAction.Cleanup` has an empty body: it performs no action. -/
def cleanup : List POut := []

end ExecuteAction

/-- The result the step process breaks with on a delivered completion:
the untouched empty result when the step tree succeeded, a failed
result carrying the step error's message otherwise. -/
def resultOfCompletion : Option String → RunResult
  | none => ⟨false, ""⟩
  | some m => ⟨true, m⟩

/-- A concrete container record in Created state with no setup and no
monitor, used to instantiate theorems. -/
def sampleContainer : Container :=
  { guid := "container-1", state := State.created, setup := none,
    action := 7, monitor := none, tags := [] }

/-- A concrete RunOnce record, used to instantiate theorems. -/
def sampleRunOnce : RunOnce :=
  { guid := "task-1", containerHandle := "handle-1", failed := false,
    failureReason := "" }

/-- A host on which writing the running state property fails and every
other call succeeds. -/
def hostSetRunningFails : Host := ⟨some "disk full", none, none, none, none⟩

/-- A concrete exchanger conversion that fails on garden container 1
and succeeds elsewhere, used to instantiate theorems about List. -/
def g2eSample : GContainer → Except String Container :=
  fun g => if g = 1 then Except.error "no state property" else Except.ok sampleContainer

/-- Claim C10: Run looks up the host container before validating the
record's state: whenever the garden lookup fails, Run returns the
lookup error verbatim (in particular ErrContainerNotFound) and performs
no state transition, no host property write and no event emission, and
spawns no step process — whatever the record's state is. -/
theorem run_lookup_before_state_check (c : Container) (e : String) (h : Host) :
    (GardenStore.run c (some e) h).ret = GardenStore.RunRet.lookupFailed e ∧
    (GardenStore.run c (some e) h).completeCall = none ∧
    (GardenStore.run c (some e) h).completeOuts = [] ∧
    (GardenStore.run c (some e) h).spawned = false :=
  ⟨rfl, rfl, rfl, rfl⟩

/-- Claim C1: when the garden lookup succeeds but the record's state is
not Created, Run calls `transitionToComplete` with a failed result whose
reason is ErrInvalidTransition's message — writing the result property,
the completed state property and emitting ContainerComplete when those
host calls succeed — and returns ErrInvalidTransition; no step process
is spawned. -/
theorem run_wrongState_invalid_transition (c : Container) (h : Host)
    (hstate : c.state ≠ State.created)
    (h1 : h.setResultErr = none) (h2 : h.setCompletedErr = none)
    (h3 : h.g2eCompleteErr = none) :
    (GardenStore.run c none h).ret = GardenStore.RunRet.invalidTransition ∧
    (GardenStore.run c none h).completeCall = some ⟨true, errInvalidTransitionMsg⟩ ∧
    (GardenStore.run c none h).completeOuts =
      [Out.setProp ContainerResultProperty (PropVal.result ⟨true, errInvalidTransitionMsg⟩),
       Out.setProp ContainerStateProperty (PropVal.state State.completed),
       Out.emit Emitted.containerComplete] ∧
    (GardenStore.run c none h).spawned = false := by
  simp [GardenStore.run, GardenStore.transitionToComplete, hstate, h1, h2, h3]

/-- Witness for C1 at a record in Running state on an all-succeeding
host. -/
theorem run_wrongState_invalid_transition_witness :
    ({ sampleContainer with state := State.running } : Container).state ≠ State.created ∧
    (GardenStore.run { sampleContainer with state := State.running } none hostOk).ret =
      GardenStore.RunRet.invalidTransition ∧
    (GardenStore.run { sampleContainer with state := State.running } none hostOk).completeCall =
      some ⟨true, errInvalidTransitionMsg⟩ :=
  ⟨by decide,
   (run_wrongState_invalid_transition { sampleContainer with state := State.running } hostOk
      (by decide) rfl rfl rfl).1,
   (run_wrongState_invalid_transition { sampleContainer with state := State.running } hostOk
      (by decide) rfl rfl rfl).2.1⟩

/-- Claim C2: Create on a record not in Initializing returns
ErrInvalidTransition with no host call and no tracker call; on a record
in Initializing it hands the record with `state := Created` to the host
and, when host creation succeeds, registers the returned record with
the tracker and returns it; when host creation fails it returns the
host error without any tracker call. -/
theorem create_requires_initializing (c : Container)
    (f : Container → Except String Container) :
    (c.state ≠ State.initializing →
      GardenStore.create c f =
        ⟨Except.error ExecErr.invalidTransition, none, []⟩) ∧
    (c.state = State.initializing →
      (∀ c2, f { c with state := State.created } = Except.ok c2 →
        GardenStore.create c f =
          ⟨Except.ok c2, some { c with state := State.created },
           [TrackerOp.initializeCall c2]⟩) ∧
      (∀ e, f { c with state := State.created } = Except.error e →
        GardenStore.create c f =
          ⟨Except.error (ExecErr.gardenError e),
           some { c with state := State.created }, []⟩)) := by
  refine ⟨fun hne => ?_, fun heq => ⟨fun c2 hf => ?_, fun e hf => ?_⟩⟩
  · simp [GardenStore.create, hne]
  · simp [GardenStore.create, heq, hf]
  · simp [GardenStore.create, heq, hf]

/-- Witness for C2 at a record in Initializing state with a succeeding
host creation. -/
theorem create_requires_initializing_witness :
    ({ sampleContainer with state := State.initializing } : Container).state =
      State.initializing ∧
    GardenStore.create { sampleContainer with state := State.initializing }
        (fun x => Except.ok x) =
      ⟨Except.ok { sampleContainer with state := State.created },
       some { sampleContainer with state := State.created },
       [TrackerOp.initializeCall { sampleContainer with state := State.created }]⟩ :=
  ⟨rfl,
   ((create_requires_initializing { sampleContainer with state := State.initializing }
      (fun x => Except.ok x)).2 rfl).1 _ rfl⟩

/-- Claim C3: for a record in Created state with no Monitor step, Run
spawns the step process with the readiness channel already filled
(readiness fires at t=0), and the step process — receiving the readiness
event first — writes the running state property and emits
ContainerRunning before any action of the terminal transition to
Completed. -/
theorem run_no_monitor_readiness_first (c : Container) (h : Host) (e : Option String)
    (hmon : c.monitor = none) (hstate : c.state = State.created)
    (h1 : h.setRunningErr = none) (h2 : h.g2eRunErr = none) :
    (GardenStore.run c none h).spawned = true ∧
    (GardenStore.run c none h).readinessAtStart = true ∧
    GardenStore.runStepProcess h c.monitor.isSome
        [GardenStore.Event.started, GardenStore.Event.complete e] =
      ([Out.consumedStarted,
        Out.setProp ContainerStateProperty (PropVal.state State.running),
        Out.emit Emitted.containerRunning,
        Out.consumedComplete e] ++
          (GardenStore.transitionToComplete h (resultOfCompletion e)).1,
       some (resultOfCompletion e)) := by
  refine ⟨by simp [GardenStore.run, hstate], by simp [GardenStore.run, hstate, hmon], ?_⟩
  cases e with
  | none =>
    simp [GardenStore.runStepProcess, GardenStore.runLoop,
      GardenStore.transitionToRunning, h1, h2, hmon, resultOfCompletion]
  | some m =>
    simp [GardenStore.runStepProcess, GardenStore.runLoop,
      GardenStore.transitionToRunning, h1, h2, hmon, resultOfCompletion]

/-- Witness for C3 at the sample Created container with no monitor, on
an all-succeeding host, with a successfully completing step tree. -/
theorem run_no_monitor_readiness_first_witness :
    sampleContainer.monitor = none ∧ sampleContainer.state = State.created ∧
    (GardenStore.run sampleContainer none hostOk).spawned = true ∧
    (GardenStore.run sampleContainer none hostOk).readinessAtStart = true ∧
    GardenStore.runStepProcess hostOk sampleContainer.monitor.isSome
        [GardenStore.Event.started, GardenStore.Event.complete none] =
      ([Out.consumedStarted,
        Out.setProp ContainerStateProperty (PropVal.state State.running),
        Out.emit Emitted.containerRunning,
        Out.consumedComplete none] ++
          (GardenStore.transitionToComplete hostOk (resultOfCompletion none)).1,
       some (resultOfCompletion none)) :=
  ⟨rfl, rfl,
   (run_no_monitor_readiness_first sampleContainer hostOk none rfl rfl rfl rfl).1,
   (run_no_monitor_readiness_first sampleContainer hostOk none rfl rfl rfl rfl).2.1,
   (run_no_monitor_readiness_first sampleContainer hostOk none rfl rfl rfl rfl).2.2⟩

/-- Helper: the trace of `transitionToComplete` consists only of
property writes and event emissions; it never contains a
completion-consumption marker. -/
theorem consumedComplete_not_in_transitionToComplete (h : Host) (r : RunResult)
    (e : Option String) :
    Out.consumedComplete e ∉ (GardenStore.transitionToComplete h r).1 := by
  obtain ⟨a, b, c, d, f⟩ := h
  cases b <;> cases c <;> cases f <;> simp [GardenStore.transitionToComplete]

/-- Counterexample to claim C4 as stated: on a host where writing the
running state property fails, with the step tree's completion already
delivered right after the readiness event, the step process records the
failure but transitions to Completed immediately — its trace contains
the Completed transition yet no consumption of the delivered
completion. -/
theorem stepProcess_runningFailure_no_consume_counterexample :
    GardenStore.runStepProcess hostSetRunningFails false
        [GardenStore.Event.started, GardenStore.Event.complete none] =
      ([Out.consumedStarted,
        Out.setProp ContainerResultProperty (PropVal.result ⟨true, "disk full"⟩),
        Out.setProp ContainerStateProperty (PropVal.state State.completed),
        Out.emit Emitted.containerComplete], some ⟨true, "disk full"⟩) ∧
    Out.consumedComplete none ∉ (GardenStore.runStepProcess hostSetRunningFails false
        [GardenStore.Event.started, GardenStore.Event.complete none]).1 := by
  exact ⟨rfl, by decide⟩

/-- Amended claim C4: if persisting `state = Running` fails when the
readiness event is received, the step process records a failure result
carrying that error's message and breaks out of its loop immediately,
transitioning the container to Completed without consuming the step
tree's completion. -/
theorem stepProcess_runningFailure_immediate_complete (h : Host) (mp : Bool)
    (rest : List GardenStore.Event) (m : String)
    (hfail : h.setRunningErr = some m) :
    GardenStore.runStepProcess h mp (GardenStore.Event.started :: rest) =
      (Out.consumedStarted :: (GardenStore.transitionToComplete h ⟨true, m⟩).1,
       some ⟨true, m⟩) ∧
    ∀ e, Out.consumedComplete e ∉
      (GardenStore.runStepProcess h mp (GardenStore.Event.started :: rest)).1 := by
  have h1 : GardenStore.runStepProcess h mp (GardenStore.Event.started :: rest) =
      (Out.consumedStarted :: (GardenStore.transitionToComplete h ⟨true, m⟩).1,
       some ⟨true, m⟩) := by
    simp [GardenStore.runStepProcess, GardenStore.runLoop,
      GardenStore.transitionToRunning, hfail]
  refine ⟨h1, fun e hmem => ?_⟩
  rw [h1] at hmem
  rcases List.mem_cons.mp hmem with h2 | h2
  · exact Out.noConfusion h2
  · exact consumedComplete_not_in_transitionToComplete h ⟨true, m⟩ e h2

/-- Witness for the amended C4 on the concrete failing host with a
delivered completion pending. -/
theorem stepProcess_runningFailure_immediate_complete_witness :
    hostSetRunningFails.setRunningErr = some "disk full" ∧
    GardenStore.runStepProcess hostSetRunningFails false
        [GardenStore.Event.started, GardenStore.Event.complete none] =
      (Out.consumedStarted ::
        (GardenStore.transitionToComplete hostSetRunningFails ⟨true, "disk full"⟩).1,
       some ⟨true, "disk full"⟩) :=
  ⟨rfl,
   (stepProcess_runningFailure_immediate_complete hostSetRunningFails false
      [GardenStore.Event.complete none] "disk full" rfl).1⟩

/-- Claim C5: ExecuteAction.Perform always sends nil on its result
channel as its final action; when the inner runner delivered an error,
it additionally sets Failed and FailureReason on the RunOnce record. -/
theorem perform_sends_nil_records_failure (r : RunOnce) (e : Option String) :
    ((ExecuteAction.perform r e).2).getLast? = some (POut.sendResult none) ∧
    (∀ m, e = some m →
      (ExecuteAction.perform r e).1.failed = true ∧
      (ExecuteAction.perform r e).1.failureReason = m) ∧
    (e = none → (ExecuteAction.perform r e).1 = r) := by
  cases e <;> simp [ExecuteAction.perform]

/-- Witness for C5 at a concrete record and a failing inner runner. -/
theorem perform_sends_nil_records_failure_witness :
    ((ExecuteAction.perform sampleRunOnce (some "boom")).2).getLast? =
      some (POut.sendResult none) ∧
    (ExecuteAction.perform sampleRunOnce (some "boom")).1.failed = true ∧
    (ExecuteAction.perform sampleRunOnce (some "boom")).1.failureReason = "boom" :=
  ⟨(perform_sends_nil_records_failure sampleRunOnce (some "boom")).1,
   ((perform_sends_nil_records_failure sampleRunOnce (some "boom")).2.1 "boom" rfl).1,
   ((perform_sends_nil_records_failure sampleRunOnce (some "boom")).2.1 "boom" rfl).2⟩

/-- Counterexample to claim C6 as stated: when the host destroy fails,
Destroy logs the error but performs no tracker call — the container's
tracker entry is not removed. -/
theorem destroy_hostFailure_tracker_counterexample :
    (GardenStore.destroy "container-1" false (some "boom")).loggedError = some "boom" ∧
    TrackerOp.deinitialize "container-1" ∉
      (GardenStore.destroy "container-1" false (some "boom")).trackerOps := by
  decide

/-- Amended claim C6: when destroying the host container fails, Destroy
logs and returns the host error and leaves the tracker untouched; the
tracker entry is deinitialized only when host destruction succeeds. -/
theorem destroy_tracker_only_on_success (guid : String) (p : Bool) (e : String) :
    GardenStore.destroy guid p (some e) = ⟨some e, p, true, [], some e⟩ ∧
    GardenStore.destroy guid p none =
      ⟨none, p, true, [TrackerOp.deinitialize guid], none⟩ :=
  ⟨rfl, rfl⟩

/-- Counterexample to claim C7 as stated: when the host's container-list
call fails, List returns ErrContainerNotFound — a NotFound error, not a
host-unavailable one. -/
theorem list_hostFailure_counterexample :
    GardenStore.listContainers (Except.error "transport failure")
        (fun _ => Except.error "unused") =
      Except.error ExecErr.containerNotFound := rfl

/-- Amended claim C7: when the host's container-list RPC fails, List
returns ErrContainerNotFound (the NotFound kind), whatever the host
error was. -/
theorem list_hostFailure_returns_notFound (e : String)
    (g2e : GContainer → Except String Container) :
    GardenStore.listContainers (Except.error e) g2e =
      Except.error ExecErr.containerNotFound := rfl

/-- Helper: the List conversion loop distributes over append. -/
theorem collectContainers_append (g2e : GContainer → Except String Container)
    (xs ys : List GContainer) :
    GardenStore.collectContainers g2e (xs ++ ys) =
      GardenStore.collectContainers g2e xs ++ GardenStore.collectContainers g2e ys := by
  induction xs with
  | nil => rfl
  | cons x xs ih =>
    simp only [List.cons_append, GardenStore.collectContainers]
    cases g2e x <;> simp [ih]

/-- Claim C8: a container in a successful host listing whose conversion
to a record fails is skipped, but the listing is not aborted: List
returns, without error, the records of all remaining containers. -/
theorem list_skips_parse_errors (g2e : GContainer → Except String Container)
    (pre post : List GContainer) (bad : GContainer) (msg : String)
    (hbad : g2e bad = Except.error msg) :
    GardenStore.listContainers (Except.ok (pre ++ bad :: post)) g2e =
      Except.ok (GardenStore.collectContainers g2e pre ++
        GardenStore.collectContainers g2e post) := by
  simp [GardenStore.listContainers, collectContainers_append,
    GardenStore.collectContainers, hbad]

/-- Witness for C8: garden container 1 fails to convert and is skipped;
the listing still returns the records of containers 0 and 2. -/
theorem list_skips_parse_errors_witness :
    g2eSample 1 = Except.error "no state property" ∧
    GardenStore.listContainers (Except.ok ([0] ++ 1 :: [2])) g2eSample =
      Except.ok (GardenStore.collectContainers g2eSample [0] ++
        GardenStore.collectContainers g2eSample [2]) :=
  ⟨rfl, list_skips_parse_errors g2eSample [0] [2] 1 "no state property" rfl⟩

/-- Claim C9: Cancel and Cleanup of ExecuteAction are no-ops — their
bodies perform no action, in particular no cancellation reaches the
inner action runner — and Perform's trace receives the inner runner's
result before anything else happens, ending with the nil send, so a
Perform in progress blocks until the inner result is delivered
regardless of Cancel calls. -/
theorem cancel_cleanup_noop :
    ExecuteAction.cancel = [] ∧ ExecuteAction.cleanup = [] ∧
    ∀ r e, POut.cancelInner ∉ (ExecuteAction.perform r e).2 ∧
      ∃ mid, (ExecuteAction.perform r e).2 =
        POut.spawnInner :: POut.recvInner e :: mid ++ [POut.sendResult none] := by
  refine ⟨rfl, rfl, fun r e => ?_⟩
  cases e with
  | none =>
    exact ⟨by simp [ExecuteAction.perform], ⟨[], by simp [ExecuteAction.perform]⟩⟩
  | some m =>
    exact ⟨by simp [ExecuteAction.perform],
      ⟨[POut.logFailed r.guid r.containerHandle m], by simp [ExecuteAction.perform]⟩⟩
